import Mathlib

/-!
# Formal model of `local-db-mcp-server`

A shallow embedding of the HTTP upload/CRUD server (`src/server.py`) and the
MCP tool server (`src/mcp_server.py`) of the `local-db-mcp-server` repository.

Python `str` values handled by `src/server.py` (file-name stems, table names)
are modelled at the byte level: a string is its UTF-8 byte sequence, a
`List Nat` whose entries are bytes (`< 256`).  Under this view
`urllib.parse.quote(s, safe='')` percent-encodes each byte and
`urllib.parse.unquote` decodes `%XX` hex pairs back into bytes; the ASCII
test `s.encode('ascii')` succeeds exactly when every byte is `< 128`.
Queries and human-readable messages of `src/mcp_server.py` are modelled as
Lean `String`s.

The external collaborators (Python codecs, the DuckDB engine) are modelled
as parameters: a codec family `dec : String → List Nat → Option (List Nat)`,
and explicit outcome parameters for `read_csv_auto`, `SHOW TABLES`,
`DESCRIBE`, `COUNT(*)` and SQL execution.  The catalog of the embedded
database is a list of table entries (name, comment, column count, row count).
-/

/-! ## Byte-level model of `urllib.parse.quote` / `unquote` -/

/-- Bytes left unescaped by `urllib.parse.quote(s, safe='')`:
ASCII alphanumerics and `_` `.` `-` `~` (the RFC 3986 unreserved set). -/
def isUnreservedByte (b : Nat) : Bool :=
  (48 ≤ b && b ≤ 57) || (65 ≤ b && b ≤ 90) || (97 ≤ b && b ≤ 122) ||
    b = 95 || b = 46 || b = 45 || b = 126

/-- Upper-case hex digit (as an ASCII byte) of a nibble. -/
def hexUpper (n : Nat) : Nat := if n < 10 then 48 + n else 55 + n

/-- Value of an ASCII hex digit, accepting both cases (as Python's
`unquote` does). -/
def hexVal (b : Nat) : Option Nat :=
  if 48 ≤ b ∧ b ≤ 57 then some (b - 48)
  else if 65 ≤ b ∧ b ≤ 70 then some (b - 55)
  else if 97 ≤ b ∧ b ≤ 102 then some (b - 87)
  else none

/-- Percent-encoding of a single byte: unreserved bytes stay, any other
byte becomes `%` followed by two upper-case hex digits. -/
def quoteByte (b : Nat) : List Nat :=
  if isUnreservedByte b then [b] else [37, hexUpper (b / 16), hexUpper (b % 16)]

/-- Byte-level model of `urllib.parse.quote(s, safe='')`. -/
def pyQuote (bs : List Nat) : List Nat := bs.flatMap quoteByte

/-- Fuel-driven scanner for `urllib.parse.unquote`: a `%` followed by two
hex digits becomes the corresponding byte; a `%` not followed by two hex
digits is kept literally and scanning resumes at the next byte (as in
CPython).  The fuel only serves structural termination; `l.length` fuel is
always enough since every step consumes at least one byte. -/
def pyUnquoteAux : Nat → List Nat → List Nat
  | 0, l => l
  | _ + 1, [] => []
  | fuel + 1, x :: rest =>
    if x = 37 then
      match rest with
      | a :: b :: rest2 =>
        match hexVal a, hexVal b with
        | some ha, some hb => (16 * ha + hb) :: pyUnquoteAux fuel rest2
        | _, _ => x :: pyUnquoteAux fuel rest
      | _ => x :: pyUnquoteAux fuel rest
    else
      x :: pyUnquoteAux fuel rest

/-- Byte-level model of `urllib.parse.unquote`. -/
def pyUnquote (l : List Nat) : List Nat := pyUnquoteAux l.length l

/-- Model of `s.encode('ascii')` succeeding: every byte below 128. -/
def allAscii (bs : List Nat) : Bool := bs.all (fun b => b < 128)

/-- UTF-8 bytes of an ASCII Lean string literal (used for SQL templates). -/
def asciiBytes (s : String) : List Nat := s.data.map Char.toNat

/-! ### Equation and round-trip lemmas for quote/unquote -/

theorem pyUnquoteAux_nil (f : Nat) : pyUnquoteAux f [] = [] := by
  cases f <;> rfl

theorem pyUnquoteAux_cons_ne (f x : Nat) (rest : List Nat) (hx : x ≠ 37) :
    pyUnquoteAux (f + 1) (x :: rest) = x :: pyUnquoteAux f rest := by
  match rest with
  | a :: b :: rest2 => rw [pyUnquoteAux, if_neg hx]
  | [] =>
    rw [pyUnquoteAux, if_neg hx]
    intro a b r2 h; simp at h
  | [a] =>
    rw [pyUnquoteAux, if_neg hx]
    intro a' b r2 h; simp at h

theorem pyUnquoteAux_esc (f a b ha hb : Nat) (rest : List Nat)
    (h1 : hexVal a = some ha) (h2 : hexVal b = some hb) :
    pyUnquoteAux (f + 1) (37 :: a :: b :: rest) = (16 * ha + hb) :: pyUnquoteAux f rest := by
  rw [pyUnquoteAux, if_pos rfl]
  simp only [h1, h2]

theorem pyUnquoteAux_esc_bad (f a b : Nat) (rest : List Nat)
    (h : hexVal a = none ∨ hexVal b = none) :
    pyUnquoteAux (f + 1) (37 :: a :: b :: rest) = 37 :: pyUnquoteAux f (a :: b :: rest) := by
  rw [pyUnquoteAux, if_pos rfl]
  rcases h with h | h
  · rw [h]
  · rw [h]
    cases hexVal a <;> rfl

theorem pyUnquoteAux_short0 (f : Nat) :
    pyUnquoteAux (f + 1) [37] = 37 :: pyUnquoteAux f [] := by
  rw [pyUnquoteAux, if_pos rfl]
  intro a b r2 h; simp at h

theorem pyUnquoteAux_short1 (f a : Nat) :
    pyUnquoteAux (f + 1) [37, a] = 37 :: pyUnquoteAux f [a] := by
  rw [pyUnquoteAux, if_pos rfl]
  intro a' b r2 h; simp at h

theorem pyUnquoteAux_fuel (f1 : Nat) :
    ∀ f2 l, l.length ≤ f1 → l.length ≤ f2 → pyUnquoteAux f1 l = pyUnquoteAux f2 l := by
  induction f1 with
  | zero =>
    intro f2 l h1 _
    have hl : l = [] := List.eq_nil_of_length_eq_zero (Nat.le_zero.mp h1)
    subst hl
    rw [pyUnquoteAux_nil, pyUnquoteAux_nil]
  | succ f1 ih =>
    intro f2 l h1 h2
    cases l with
    | nil => rw [pyUnquoteAux_nil, pyUnquoteAux_nil]
    | cons x rest =>
      cases f2 with
      | zero => simp at h2
      | succ g2 =>
        have h1' : rest.length ≤ f1 := by simpa using h1
        have h2' : rest.length ≤ g2 := by simpa using h2
        by_cases hx : x = 37
        · subst hx
          match rest, h1', h2' with
          | [], _, _ =>
            rw [pyUnquoteAux_short0, pyUnquoteAux_short0, pyUnquoteAux_nil, pyUnquoteAux_nil]
          | [a], ha1, ha2 =>
            rw [pyUnquoteAux_short1, pyUnquoteAux_short1, ih g2 [a] ha1 ha2]
          | a :: b :: rest2, ha1, ha2 =>
            have hr1 : rest2.length ≤ f1 := by simp at ha1; omega
            have hr2 : rest2.length ≤ g2 := by simp at ha2; omega
            cases hva : hexVal a with
            | none =>
              rw [pyUnquoteAux_esc_bad f1 a b rest2 (Or.inl hva),
                pyUnquoteAux_esc_bad g2 a b rest2 (Or.inl hva),
                ih g2 (a :: b :: rest2) ha1 ha2]
            | some va =>
              cases hvb : hexVal b with
              | none =>
                rw [pyUnquoteAux_esc_bad f1 a b rest2 (Or.inr hvb),
                  pyUnquoteAux_esc_bad g2 a b rest2 (Or.inr hvb),
                  ih g2 (a :: b :: rest2) ha1 ha2]
              | some vb =>
                rw [pyUnquoteAux_esc f1 a b va vb rest2 hva hvb,
                  pyUnquoteAux_esc g2 a b va vb rest2 hva hvb,
                  ih g2 rest2 hr1 hr2]
        · rw [pyUnquoteAux_cons_ne f1 x rest hx, pyUnquoteAux_cons_ne g2 x rest hx,
            ih g2 rest h1' h2']

theorem pyUnquote_nil : pyUnquote [] = [] := rfl

theorem pyUnquote_cons_ne (x : Nat) (rest : List Nat) (h : x ≠ 37) :
    pyUnquote (x :: rest) = x :: pyUnquote rest := by
  rw [pyUnquote, pyUnquote, List.length_cons, pyUnquoteAux_cons_ne _ _ _ h]

theorem pyUnquote_esc (a b : Nat) (rest : List Nat) (ha : Nat) (hb : Nat)
    (h1 : hexVal a = some ha) (h2 : hexVal b = some hb) :
    pyUnquote (37 :: a :: b :: rest) = (16 * ha + hb) :: pyUnquote rest := by
  rw [pyUnquote, pyUnquote, List.length_cons, List.length_cons, List.length_cons,
    pyUnquoteAux_esc _ _ _ _ _ _ h1 h2,
    pyUnquoteAux_fuel (rest.length + 1 + 1) rest.length rest (by omega) (by omega)]

theorem hexVal_hexUpper : ∀ n < 16, hexVal (hexUpper n) = some n := by decide

theorem isUnreservedByte_ne_37 (b : Nat) (h : isUnreservedByte b = true) : b ≠ 37 := by
  intro hb; subst hb; exact absurd h (by decide)

theorem quoteByte_unquote (b : Nat) (hb : b < 256) (rest : List Nat) :
    pyUnquote (quoteByte b ++ rest) = b :: pyUnquote rest := by
  by_cases h : isUnreservedByte b = true
  · rw [quoteByte, if_pos h, List.singleton_append]
    exact pyUnquote_cons_ne b rest (isUnreservedByte_ne_37 b h)
  · rw [quoteByte, if_neg h, List.cons_append, List.cons_append, List.cons_append,
      List.nil_append]
    have hdiv : b / 16 < 16 := by omega
    have hmod : b % 16 < 16 := Nat.mod_lt b (by omega)
    rw [pyUnquote_esc _ _ _ _ _ (hexVal_hexUpper _ hdiv) (hexVal_hexUpper _ hmod)]
    rw [Nat.div_add_mod b 16]

/-- `unquote` inverts `quote` on byte strings. -/
theorem pyUnquote_pyQuote (bs : List Nat) (h : ∀ b ∈ bs, b < 256) :
    pyUnquote (pyQuote bs) = bs := by
  induction bs with
  | nil => rfl
  | cons b rest ih =>
    have hb : b < 256 := h b (List.mem_cons_self b rest)
    have hrest : ∀ x ∈ rest, x < 256 := fun x hx => h x (List.mem_cons_of_mem b hx)
    rw [pyQuote, List.flatMap_cons]
    rw [show rest.flatMap quoteByte = pyQuote rest from rfl]
    rw [quoteByte_unquote b hb, ih hrest]

/-- `unquote` is the identity on percent-free byte strings. -/
theorem pyUnquote_no_percent (bs : List Nat) (h : 37 ∉ bs) : pyUnquote bs = bs := by
  induction bs with
  | nil => rfl
  | cons b rest ih =>
    have hb : b ≠ 37 := fun he => h (he ▸ List.mem_cons_self b rest)
    rw [pyUnquote_cons_ne b rest hb, ih (fun hm => h (List.mem_cons_of_mem b hm))]

theorem quoteByte_no_doublequote (b : Nat) : 34 ∉ quoteByte b := by
  unfold quoteByte
  by_cases h : isUnreservedByte b = true
  · rw [if_pos h]
    intro hm
    rcases List.mem_singleton.mp hm with rfl
    exact absurd h (by decide)
  · rw [if_neg h]
    intro hm
    simp only [List.mem_cons, List.mem_singleton, List.not_mem_nil, or_false] at hm
    rcases hm with hm | hm | hm
    · omega
    · unfold hexUpper at hm; split at hm <;> omega
    · unfold hexUpper at hm; split at hm <;> omega

/-- `quote` never produces a double-quote byte (34): unreserved bytes are
never 34, and the escape triple consists of `%` and hex digits. -/
theorem pyQuote_no_doublequote (bs : List Nat) : 34 ∉ pyQuote bs := by
  intro hmem
  rw [pyQuote, List.mem_flatMap] at hmem
  obtain ⟨b, _, hb⟩ := hmem
  exact quoteByte_no_doublequote b hb

/-! ## Generated safe table names (`table_{int(time.time())}`) -/

/-- Decimal digits (as ASCII bytes) of a natural number, fuel-driven so that
it reduces in the kernel. -/
def natDigitsAux : Nat → Nat → List Nat
  | 0, _ => []
  | fuel + 1, n => if n < 10 then [48 + n] else natDigitsAux fuel (n / 10) ++ [48 + n % 10]

def natDigits (n : Nat) : List Nat := natDigitsAux (n + 1) n

/-- Model of the generated safe name `f"table_{int(time.time())}"`. -/
def tableTs (ts : Nat) : List Nat := asciiBytes "table_" ++ natDigits ts

theorem natDigitsAux_digits : ∀ fuel n b, b ∈ natDigitsAux fuel n → 48 ≤ b ∧ b ≤ 57 := by
  intro fuel
  induction fuel with
  | zero => intro n b hb; cases hb
  | succ fuel ih =>
    intro n b hb
    unfold natDigitsAux at hb
    split at hb
    · rcases List.mem_singleton.mp hb with rfl; omega
    · rcases List.mem_append.mp hb with hb | hb
      · exact ih _ _ hb
      · rcases List.mem_singleton.mp hb with rfl
        have := Nat.mod_lt n (show 0 < 10 by omega)
        omega

theorem asciiBytes_table_eq : asciiBytes "table_" = [116, 97, 98, 108, 101, 95] := by decide

theorem tableTs_bytes (ts : Nat) (b : Nat) (hb : b ∈ tableTs ts) :
    48 ≤ b ∧ b ≤ 57 ∨ b ∈ [116, 97, 98, 108, 101, 95] := by
  rcases List.mem_append.mp hb with h | h
  · exact Or.inr (asciiBytes_table_eq ▸ h)
  · exact Or.inl (natDigitsAux_digits _ _ _ h)

theorem tableTs_ascii (ts : Nat) : allAscii (tableTs ts) = true := by
  rw [allAscii, List.all_eq_true]
  intro b hb
  rcases tableTs_bytes ts b hb with h | h
  · simp only [decide_eq_true_eq]; omega
  · simp only [List.mem_cons, List.not_mem_nil, or_false] at h
    rcases h with rfl | rfl | rfl | rfl | rfl | rfl <;> decide

theorem tableTs_no_percent (ts : Nat) : 37 ∉ tableTs ts := by
  intro hb
  rcases tableTs_bytes ts 37 hb with h | h
  · omega
  · exact absurd h (by decide)

/-- The generated safe name is never equal to the percent-encoded stem of a
file whose decoded stem is non-ASCII. -/
theorem pyQuote_ne_tableTs (stem : List Nat) (ts : Nat)
    (hbytes : ∀ b ∈ stem, b < 256)
    (hna : allAscii (pyUnquote stem) = false) : pyQuote stem ≠ tableTs ts := by
  intro heq
  have hstem : stem = tableTs ts := by
    have := pyUnquote_pyQuote stem hbytes
    rw [heq, pyUnquote_no_percent _ (tableTs_no_percent ts)] at this
    exact this.symm
  rw [hstem, pyUnquote_no_percent _ (tableTs_no_percent ts), tableTs_ascii] at hna
  cases hna

/-! ## `_decode_with_fallbacks` (src/server.py lines 104-113)

The Python codecs are external; they are modelled as a parameter
`dec : String → List Nat → Option (List Nat)` mapping an encoding name and
the raw bytes to the decoded text (`none` models a decode exception). -/

/-- The loop `for enc in ("utf-8", "cp932", "utf-16-sig")`: return the first
successful decoding, raise `UnicodeDecodeError` when every attempt fails. -/
def decodeLoop (dec : String → List Nat → Option (List Nat)) (content : List Nat) :
    List String → Except String (List Nat)
  | [] => Except.error "Unsupported encoding. Save as UTF-8/Shift_JIS."
  | e :: rest =>
    match dec e content with
    | some s => Except.ok s
    | none => decodeLoop dec content rest

/-- Model of `_decode_with_fallbacks`. -/
def decodeWithFallbacks (dec : String → List Nat → Option (List Nat))
    (content : List Nat) : Except String (List Nat) :=
  decodeLoop dec content ["utf-8", "cp932", "utf-16-sig"]

/-! ## Catalog model

A table of the embedded DuckDB database: its catalog name, optional comment
(`COMMENT ON TABLE`), column count and row count. -/

structure TableEnt where
  name : List Nat
  comment : Option (List Nat)
  cols : Nat
  rows : Nat
deriving DecidableEq

/-- Names in the catalog, in `SHOW TABLES` order. -/
def catNames (cat : List TableEnt) : List (List Nat) := cat.map (fun t => t.name)

/-- `CREATE OR REPLACE TABLE name`: any table with the same name is
replaced by the fresh one. -/
def catReplace (cat : List TableEnt) (t : TableEnt) : List TableEnt :=
  (cat.filter (fun u => decide (u.name ≠ t.name))) ++ [t]

/-- `DROP TABLE IF EXISTS name`. -/
def catDrop (cat : List TableEnt) (n : List Nat) : List TableEnt :=
  cat.filter (fun u => decide (u.name ≠ n))

/-- `ALTER TABLE old RENAME TO new` (applied when the engine accepts it). -/
def catRename (cat : List TableEnt) (old new : List Nat) : List TableEnt :=
  cat.map (fun t => if t.name = old then { t with name := new } else t)

/-- `COMMENT ON TABLE n IS c`. -/
def catSetComment (cat : List TableEnt) (n c : List Nat) : List TableEnt :=
  cat.map (fun t => if t.name = n then { t with comment := some c } else t)

/-- `SELECT comment FROM duckdb_tables() WHERE table_name = n` (how
`get_table_metadata` in src/server.py reads a table comment back). -/
def lookupComment (cat : List TableEnt) (n : List Nat) : Option (List Nat) :=
  match cat.find? (fun t => decide (t.name = n)) with
  | some t => t.comment
  | none => none

/-! ## `_resolve_table_name` (src/server.py lines 115-133)

The loop over `candidates = [path_name, unquote(path_name),
quote(path_name, safe='')]`, returning the first candidate present in
`SHOW TABLES`, unrolled over the three-element list. -/

def resolveTableName (existing : List (List Nat)) (pathName : List Nat) :
    Except String (List Nat) :=
  if pathName ∈ existing then Except.ok pathName
  else if pyUnquote pathName ∈ existing then Except.ok (pyUnquote pathName)
  else if pyQuote pathName ∈ existing then Except.ok (pyQuote pathName)
  else Except.error "404: table not found"

def exceptOk {ε α : Type} : Except ε α → Bool
  | Except.ok _ => true
  | Except.error _ => false

/-! ## SQL identifier interpolation (src/server.py)

The SQL statements that inline a table name, built exactly as the source's
f-strings build them.  `import_duckdb_file` escapes double quotes in the
name (`table_name.replace('"', '""')`); the other endpoints do not. -/

/-- `table_name.replace('"', '""')` from `import_duckdb_file`. -/
def escQuotes (n : List Nat) : List Nat :=
  n.flatMap (fun b => if b = 34 then [34, 34] else [b])

/-- `f'DROP TABLE IF EXISTS "{safe_table_name}"'` in `import_duckdb_file`,
where `safe_table_name = table_name.replace('"', '""')`. -/
def importDropSQL (tableName : List Nat) : List Nat :=
  asciiBytes "DROP TABLE IF EXISTS \x22" ++ escQuotes tableName ++ asciiBytes "\x22"

/-- `f'ALTER TABLE "{resolved}" RENAME TO "{new_name}"'` in `rename_table`:
both names are inlined without escaping. -/
def renameSQL (resolved newName : List Nat) : List Nat :=
  asciiBytes "ALTER TABLE \x22" ++ resolved ++ asciiBytes "\x22 RENAME TO \x22" ++
    newName ++ asciiBytes "\x22"

/-- `f"COMMENT ON TABLE \"{table_name}\" IS '{comment}'"` in
`update_table_comment`: the path-supplied name is inlined without escaping. -/
def commentOnTableSQL (tableName comment : List Nat) : List Nat :=
  asciiBytes "COMMENT ON TABLE \x22" ++ tableName ++ asciiBytes "\x22 IS '" ++
    comment ++ asciiBytes "'"

/-- `f'SELECT * FROM "{resolved}" LIMIT {limit}'` in `query_table`. -/
def queryTableSQL (resolved : List Nat) (limit : Nat) : List Nat :=
  asciiBytes "SELECT * FROM \x22" ++ resolved ++ asciiBytes "\x22 LIMIT " ++ natDigits limit

/-- `f'DROP TABLE IF EXISTS "{resolved}"'` in `delete_table`. -/
def deleteTableSQL (resolved : List Nat) : List Nat :=
  asciiBytes "DROP TABLE IF EXISTS \x22" ++ resolved ++ asciiBytes "\x22"

/-! ## `upload_file` (src/server.py lines 165-265)

The handler is modelled as a pure function.  Engine effects are parameters:
`csvParse` is the outcome of `read_csv_auto` followed by `COUNT(*)` and
`DESCRIBE` on the created table (`some (cols, rows)`; `none` models an
engine exception), `duckdbImport` is the catalog produced by
`import_duckdb_file` (`none` models an exception).  `ALTER TABLE ... RENAME`
fails exactly when the target name already exists (DuckDB semantics).

Note that the whole handler body sits in `try: ... except Exception as e:
raise HTTPException(status_code=500, ...)` and FastAPI's `HTTPException`
derives from `Exception`, so every inner `HTTPException(400, ...)` is
re-raised as a 500 whose detail wraps `str(e)` (Starlette renders
`str(HTTPException)` as `f"{status_code}: {detail}"`). -/

inductive FileExt where
  | csv
  | tsv
  | duckdb
  | other
deriving DecidableEq

inductive PyExc where
  | httpExc (status : Nat) (detail : String)
  | engineExc (msg : String)
deriving DecidableEq

/-- Python `str(e)`. -/
def excStr : PyExc → String
  | PyExc.httpExc c d => toString c ++ ": " ++ d
  | PyExc.engineExc m => m

/-- Detail of the HTTP 500 raised by `upload_file`'s catch-all handler:
`f"アップロードエラー: {str(e)}"`. -/
def uploadWrap (m : String) : String := "アップロードエラー: " ++ m

def encMsg : String :=
  "ファイルのエンコーディングを判定できませんでした。UTF-8 もしくは Shift_JIS(CP932) で保存してください。"

def unsupportedMsg : String := "CSV、TSV、またはDuckDBファイルのみサポートしています"

def noColsMsg : String :=
  "アップロードに失敗しました。カラムが検出できませんでした（区切り文字やエンコーディングをご確認ください）。"

def noRowsMsg : String :=
  "アップロードに失敗しました。データ行が検出できませんでした（ヘッダーのみ、または空ファイルの可能性）。"

structure UploadOutcome where
  /-- HTTP status of the response (200 for a JSON body, else the raised
  `HTTPException`'s status). -/
  status : Nat
  /-- `detail` of the raised `HTTPException` (empty on success). -/
  detail : String
  /-- The `table_name` field of the success body. -/
  tableNameOut : Option (List Nat)
  /-- Catalog after the request. -/
  catalog : List TableEnt
  /-- Whether the temporary file was created. -/
  tempCreated : Bool
  /-- Whether `os.unlink(temp_file_path)` ran. -/
  tempDeleted : Bool
  /-- Whether `conn.close()` ran. -/
  connClosed : Bool
deriving DecidableEq

/-- Body of the `try: ... finally: os.unlink(...)` block: the
`if .csv / elif .tsv / elif .duckdb / else` chain, the conditional rename to
the generated safe name, and the zero-column / zero-row validation.  Returns
the raised exception or the final `table_name` (`none` marks the `.duckdb`
early return) together with the mutated catalog. -/
def uploadInner (ext : FileExt) (tableName safeTableName decodedOriginal : List Nat)
    (renameToSafe : Bool) (csvParse : Option (Nat × Nat))
    (duckdbImport : Option (List TableEnt)) (cat0 : List TableEnt) :
    Except PyExc (Option (List Nat)) × List TableEnt :=
  match ext with
  | FileExt.csv | FileExt.tsv =>
    match csvParse with
    | none => (Except.error (PyExc.engineExc "read_csv_auto error"), cat0)
    | some (cols, rows) =>
      let cat1 := catReplace cat0 ⟨tableName, none, cols, rows⟩
      let renameStep : Except PyExc (List Nat × List TableEnt) :=
        if renameToSafe = true ∧ safeTableName ≠ tableName then
          if safeTableName ∈ catNames cat1 then
            Except.error (PyExc.engineExc "rename target exists")
          else
            Except.ok (safeTableName,
              catSetComment (catRename cat1 tableName safeTableName)
                safeTableName decodedOriginal)
        else Except.ok (tableName, cat1)
      match renameStep with
      | Except.error e => (Except.error e, cat1)
      | Except.ok (finalName, cat2) =>
        if cols = 0 then
          (Except.error (PyExc.httpExc 400 noColsMsg), catDrop cat2 finalName)
        else if rows = 0 then
          (Except.error (PyExc.httpExc 400 noRowsMsg), catDrop cat2 finalName)
        else (Except.ok (some finalName), cat2)
  | FileExt.duckdb =>
    match duckdbImport with
    | none => (Except.error (PyExc.engineExc "duckdb import error"), cat0)
    | some cat' => (Except.ok none, cat')
  | FileExt.other => (Except.error (PyExc.httpExc 400 unsupportedMsg), cat0)

/-- Everything after the temporary file has been written: the inner
`try` body, the `finally: os.unlink(...)`, the `conn.close()` that only the
CSV/TSV success path reaches (the `.duckdb` branch returns from inside the
`try`), and the outer catch-all converting any exception to HTTP 500. -/
def uploadAfterStage (ext : FileExt) (tableName safeTableName decodedOriginal : List Nat)
    (renameToSafe : Bool) (csvParse : Option (Nat × Nat))
    (duckdbImport : Option (List TableEnt)) (cat0 : List TableEnt) : UploadOutcome :=
  match uploadInner ext tableName safeTableName decodedOriginal renameToSafe
      csvParse duckdbImport cat0 with
  | (Except.ok (some finalName), cat) =>
    { status := 200, detail := "", tableNameOut := some finalName, catalog := cat,
      tempCreated := true, tempDeleted := true, connClosed := true }
  | (Except.ok none, cat) =>
    { status := 200, detail := "", tableNameOut := some (asciiBytes "imported_database"),
      catalog := cat, tempCreated := true, tempDeleted := true, connClosed := false }
  | (Except.error e, cat) =>
    { status := 500, detail := uploadWrap (excStr e), tableNameOut := none, catalog := cat,
      tempCreated := true, tempDeleted := true, connClosed := false }

/-- Model of the `upload_file` handler.  `stem` is `Path(file.filename).stem`
and `ext` the extension dispatched on by the `endswith` chain; `ts` is
`int(time.time())`. -/
def uploadFile (dec : String → List Nat → Option (List Nat)) (ext : FileExt)
    (stem content : List Nat) (ts : Nat) (csvParse : Option (Nat × Nat))
    (duckdbImport : Option (List TableEnt)) (cat0 : List TableEnt) : UploadOutcome :=
  let tableName := pyQuote stem
  let decodedOriginal := pyUnquote stem
  let renameToSafe := !(allAscii decodedOriginal)
  let safeTableName := if renameToSafe = true then tableTs ts else tableName
  match ext with
  | FileExt.duckdb =>
    uploadAfterStage ext tableName safeTableName decodedOriginal renameToSafe
      csvParse duckdbImport cat0
  | _ =>
    match decodeWithFallbacks dec content with
    | Except.error _ =>
      { status := 500, detail := uploadWrap (excStr (PyExc.httpExc 400 encMsg)),
        tableNameOut := none, catalog := cat0,
        tempCreated := false, tempDeleted := false, connClosed := false }
    | Except.ok _ =>
      uploadAfterStage ext tableName safeTableName decodedOriginal renameToSafe
        csvParse duckdbImport cat0

/-! ## `_execute_query` / `_get_table_info` / `handle_call_tool`
(src/mcp_server.py)

Queries and messages are Lean `String`s.  Python's `str.strip()` /
`str.upper()` are modelled over ASCII (`strip` removes ASCII whitespace,
`upper` upper-cases `a`-`z`); `in` and `startswith` are substring / prefix
tests on the character list. -/

def isPySpace (c : Char) : Bool :=
  c = ' ' || c = '\t' || c = '\n' || c = '\r' || c = '\x0b' || c = '\x0c'

/-- `query.strip()`. -/
def pyStrip (s : String) : List Char :=
  ((s.data.dropWhile isPySpace).reverse.dropWhile isPySpace).reverse

/-- `str.upper()` restricted to ASCII letters. -/
def upperChar (c : Char) : Char :=
  if 'a' ≤ c && c ≤ 'z' then Char.ofNat (c.toNat - 32) else c

def pyUpper (l : List Char) : List Char := l.map upperChar

/-- `needle` is a prefix of `hay` (model of `str.startswith`). -/
def listLeads {α : Type} [BEq α] : List α → List α → Bool
  | [], _ => true
  | _ :: _, [] => false
  | x :: xs, y :: ys => x == y && listLeads xs ys

/-- `needle in hay` (Python substring test). -/
def listHasSub {α : Type} [BEq α] (needle : List α) : List α → Bool
  | [] => listLeads needle []
  | x :: rest => listLeads needle (x :: rest) || listHasSub needle rest

/-- `query.rstrip(';')`. -/
def rstripSemi (s : String) : String :=
  String.mk ((s.data.reverse.dropWhile (fun c => c == ';')).reverse)

/-- The guard `query.strip().upper().startswith("SELECT") and "LIMIT" not in
query.upper()` of `_execute_query`. -/
def selectNeedsLimit (q : String) : Bool :=
  listLeads "SELECT".data (pyUpper (pyStrip q)) &&
    !(listHasSub "LIMIT".data (pyUpper q.data))

/-- The statement actually executed by `_execute_query`:
`query = f"{query.rstrip(';')} LIMIT {limit}"` when the guard holds, the
input unchanged otherwise. -/
def effectiveQuery (q : String) (limit : Nat) : String :=
  if selectNeedsLimit q then rstripSemi q ++ " LIMIT " ++ toString limit else q

/-- Engine and catalog effects seen by the MCP server, as parameters:
`connect` models `duckdb.connect`, `exec` models `conn.execute(sql)` for
`execute_query` (columns and stringified rows), `showTables`, `descr` and
`countRows` model the catalog queries of `_get_table_info`.  `Except.error`
models a raised exception carrying `str(e)`. -/
structure McpEnv where
  connect : Except String Unit
  exec : String → Except String (List String × List (List String))
  showTables : Except String (List String)
  descr : String → Except String (List (List String))
  countRows : String → Except String Nat

structure McpOut where
  /-- The returned `TextContent` texts. -/
  texts : List String
  connOpened : Bool
  connClosed : Bool
  /-- The SQL string passed to `conn.execute` in `_execute_query`, when
  execution was reached. -/
  executedSQL : Option String
deriving DecidableEq

def execFailMsg : String := "クエリの実行に失敗しました: "

def infoFailMsg : String := "テーブル情報の取得に失敗しました: "

/-- `f"{row_count:,}"`: decimal digits grouped in threes by commas. -/
def commaGroup (ds : List Char) : List Char :=
  if ds.length ≤ 3 then ds
  else commaGroup (ds.take (ds.length - 3)) ++ (',' :: ds.drop (ds.length - 3))
termination_by ds.length
decreasing_by simp; omega

def commaFmt (n : Nat) : String := String.mk (commaGroup (toString n).data)

/-- The Markdown-style table `_execute_query` renders on a non-empty
result (`NULL` replacement is part of the `rows` strings supplied by the
environment). -/
def queryMarkdown (cols : List String) (rows : List (List String)) : String :=
  String.intercalate "\n"
    (["## クエリ結果 (" ++ toString rows.length ++ "行)\n", "```",
      "| " ++ String.intercalate " | " cols ++ " |",
      "|" ++ String.intercalate "|" (cols.map (fun _ => "---")) ++ "|"] ++
     rows.map (fun r => "| " ++ String.intercalate " | " r ++ " |") ++ ["```"])

/-- Model of `_execute_query(query, limit)`: the whole body is inside
`try: ... except Exception as e: return [TextContent(...)]`, so connect and
execute failures surface as a single error text and leave the connection
unclosed; `conn.close()` runs right after a successful fetch. -/
def mcpExecuteQuery (env : McpEnv) (q : String) (limit : Nat) : McpOut :=
  match env.connect with
  | Except.error e =>
    { texts := [execFailMsg ++ e], connOpened := false, connClosed := false,
      executedSQL := none }
  | Except.ok _ =>
    let q2 := effectiveQuery q limit
    match env.exec q2 with
    | Except.error e =>
      { texts := [execFailMsg ++ e], connOpened := true, connClosed := false,
        executedSQL := some q2 }
    | Except.ok (cols, rows) =>
      if rows.isEmpty then
        { texts := ["クエリの結果がありません"], connOpened := true, connClosed := true,
          executedSQL := some q2 }
      else
        { texts := [queryMarkdown cols rows], connOpened := true, connClosed := true,
          executedSQL := some q2 }

/-- Rendering of one `DESCRIBE` tuple in `_get_table_info` (column name,
type, Python-truthiness of `col[2]` rendered `YES`/`NO`, `col[3]` or `""`).
The tuple is supplied as a list of cell strings; a missing cell renders
empty, and a `None` third cell is the empty string (falsy). -/
def descLine (r : List String) : String :=
  "| " ++ r.getD 0 "" ++ " | " ++ r.getD 1 "" ++ " | " ++
    (if r.getD 2 "" ≠ "" then "YES" else "NO") ++ " | " ++ r.getD 3 "" ++ " |"

def tableInfoMarkdown (t : String) (dcols : List (List String)) (cnt : Nat) : String :=
  String.intercalate "\n"
    (["## テーブル: " ++ t ++ "\n", "**行数**: " ++ commaFmt cnt ++ "\n",
      "### カラム情報\n", "```",
      "| カラム名 | データ型 | NULL許可 | デフォルト値 |",
      "|----------|----------|----------|--------------|"] ++
     dcols.map descLine ++ ["```"])

/-- One row of the all-tables listing; a failing `COUNT(*)` is caught by the
inner `try` and rendered as an error cell. -/
def tableListLine (env : McpEnv) (t : String) : String :=
  match env.countRows t with
  | Except.ok n => "| " ++ t ++ " | " ++ commaFmt n ++ " |"
  | Except.error _ => "| " ++ t ++ " | エラー |"

def tablesListMarkdown (env : McpEnv) (names : List String) : String :=
  String.intercalate "\n"
    (["## データベース内のテーブル一覧\n", "```", "| テーブル名 | 行数 |",
      "|------------|------|"] ++ names.map (tableListLine env) ++
     ["```", "\n特定のテーブルの詳細情報を取得するには、`table_name`パラメータを指定してください。"])

/-- Model of `_get_table_info(table_name)`. -/
def mcpGetTableInfo (env : McpEnv) (tn : Option String) : McpOut :=
  match env.connect with
  | Except.error e =>
    { texts := [infoFailMsg ++ e], connOpened := false, connClosed := false,
      executedSQL := none }
  | Except.ok _ =>
    match env.showTables with
    | Except.error e =>
      { texts := [infoFailMsg ++ e], connOpened := true, connClosed := false,
        executedSQL := none }
    | Except.ok names =>
      match tn with
      | some t =>
        if t ∈ names then
          match env.descr t with
          | Except.error e =>
            { texts := [infoFailMsg ++ e], connOpened := true, connClosed := false,
              executedSQL := none }
          | Except.ok dcols =>
            match env.countRows t with
            | Except.error e =>
              { texts := [infoFailMsg ++ e], connOpened := true, connClosed := false,
                executedSQL := none }
            | Except.ok cnt =>
              { texts := [tableInfoMarkdown t dcols cnt], connOpened := true,
                connClosed := true, executedSQL := none }
        else
          { texts := ["テーブル '" ++ t ++ "' が見つかりません。\n利用可能なテーブル: " ++
              (if names.isEmpty then "なし" else String.intercalate ", " names)],
            connOpened := true, connClosed := true, executedSQL := none }
      | none =>
        if names.isEmpty then
          { texts := ["データベースにテーブルがありません。"], connOpened := true,
            connClosed := true, executedSQL := none }
        else
          { texts := [tablesListMarkdown env names], connOpened := true,
            connClosed := true, executedSQL := none }

/-- Arguments of a tool call (`arguments.get(...)`). -/
structure ToolArgs where
  query : Option String
  limit : Option Nat
  tableName : Option String

/-- Model of `handle_call_tool`.  A present `query` argument reaches
`_execute_query` with `arguments.get("limit", 100)`; a missing one would hit
`query[:100]` in the logging call, a `TypeError` that the `except` block's
own `query[:50]` re-raises — modelled as `Except.error`.  Any other internal
failure is converted to a text by the inner handlers. -/
def handleCallTool (env : McpEnv) (name : String) (args : ToolArgs) :
    Except String McpOut :=
  if name = "execute_query" then
    match args.query with
    | none => Except.error "TypeError: NoneType object is not subscriptable"
    | some q => Except.ok (mcpExecuteQuery env q (args.limit.getD 100))
  else if name = "get_table_info" then
    Except.ok (mcpGetTableInfo env args.tableName)
  else
    Except.ok
      { texts := ["Unknown tool: " ++ name], connOpened := false,
        connClosed := false, executedSQL := none }

/-! ## Helper lemmas -/

theorem decodeLoop_all_none (dec : String → List Nat → Option (List Nat))
    (content : List Nat) (encs : List String) (h : ∀ e, dec e content = none) :
    decodeLoop dec content encs =
      Except.error "Unsupported encoding. Save as UTF-8/Shift_JIS." := by
  induction encs with
  | nil => rfl
  | cons e rest ih => rw [decodeLoop, h e, ih]

theorem catNames_catReplace_self (cat : List TableEnt) (t : TableEnt) :
    t.name ∈ catNames (catReplace cat t) := by
  rw [catNames, catReplace, List.map_append]
  exact List.mem_append_right _ (List.mem_singleton.mpr rfl)

theorem catNames_catReplace_subset (cat : List TableEnt) (t : TableEnt) (n : List Nat)
    (hn : n ∈ catNames (catReplace cat t)) : n ∈ catNames cat ∨ n = t.name := by
  rw [catNames, catReplace, List.map_append] at hn
  rcases List.mem_append.mp hn with h | h
  · left
    rw [catNames]
    rcases List.mem_map.mp h with ⟨u, hu, hun⟩
    exact List.mem_map.mpr ⟨u, List.mem_of_mem_filter hu, hun⟩
  · right
    exact List.mem_singleton.mp h

theorem catNames_catRename_mem (cat : List TableEnt) (old new : List Nat)
    (h : old ∈ catNames cat) : new ∈ catNames (catRename cat old new) := by
  rw [catNames] at h
  rcases List.mem_map.mp h with ⟨u, hu, hun⟩
  rw [catNames, catRename]
  refine List.mem_map.mpr ⟨if u.name = old then { u with name := new } else u, ?_, ?_⟩
  · exact List.mem_map.mpr ⟨u, hu, rfl⟩
  · rw [if_pos hun]

theorem lookupComment_catSetComment (cat : List TableEnt) (n c : List Nat)
    (h : n ∈ catNames cat) : lookupComment (catSetComment cat n c) n = some c := by
  induction cat with
  | nil => cases h
  | cons t rest ih =>
    by_cases ht : t.name = n
    · rw [catSetComment, List.map_cons, if_pos ht, lookupComment, List.find?]
      simp [ht]
    · have hrest : n ∈ catNames rest := by
        rcases List.mem_cons.mp h with h | h
        · exact absurd h.symm ht
        · exact h
      rw [catSetComment, List.map_cons, if_neg ht, lookupComment, List.find?]
      have : (decide (t.name = n)) = false := by simp [ht]
      rw [this]
      exact ih hrest

theorem catNames_catDrop_self (cat : List TableEnt) (n : List Nat) :
    n ∉ catNames (catDrop cat n) := by
  intro h
  rw [catNames, catDrop] at h
  rcases List.mem_map.mp h with ⟨u, hu, hun⟩
  have := List.of_mem_filter hu
  simp only [decide_eq_true_eq] at this
  exact this hun

theorem uploadAfterStage_temp (ext : FileExt)
    (tableName safeTableName decodedOriginal : List Nat) (renameToSafe : Bool)
    (csvParse : Option (Nat × Nat)) (duckdbImport : Option (List TableEnt))
    (cat0 : List TableEnt) :
    (uploadAfterStage ext tableName safeTableName decodedOriginal renameToSafe
        csvParse duckdbImport cat0).tempCreated = true ∧
      (uploadAfterStage ext tableName safeTableName decodedOriginal renameToSafe
        csvParse duckdbImport cat0).tempDeleted = true := by
  rw [uploadAfterStage]
  rcases h : uploadInner ext tableName safeTableName decodedOriginal renameToSafe
      csvParse duckdbImport cat0 with ⟨r, cat⟩
  rcases r with e | fn
  · exact ⟨rfl, rfl⟩
  · rcases fn with _ | n <;> exact ⟨rfl, rfl⟩

/-! ## Claim theorems -/

/-- Claim C1: for every uploaded byte string, `_decode_with_fallbacks` tries
UTF-8, then CP932, then UTF-16 with BOM, in that order, returns the first
successful decoding, and raises a decode error if and only if all three
attempts fail. -/
theorem c1_decode_fallback_order (dec : String → List Nat → Option (List Nat))
    (content : List Nat) (s : List Nat) :
    (dec "utf-8" content = some s → decodeWithFallbacks dec content = Except.ok s) ∧
    (dec "utf-8" content = none → dec "cp932" content = some s →
      decodeWithFallbacks dec content = Except.ok s) ∧
    (dec "utf-8" content = none → dec "cp932" content = none →
      dec "utf-16-sig" content = some s →
      decodeWithFallbacks dec content = Except.ok s) ∧
    ((∃ e, decodeWithFallbacks dec content = Except.error e) ↔
      dec "utf-8" content = none ∧ dec "cp932" content = none ∧
        dec "utf-16-sig" content = none) := by
  refine ⟨?_, ?_, ?_, ?_⟩
  · intro h1
    rw [decodeWithFallbacks, decodeLoop, h1]
  · intro h1 h2
    rw [decodeWithFallbacks, decodeLoop, h1, decodeLoop, h2]
  · intro h1 h2 h3
    rw [decodeWithFallbacks, decodeLoop, h1, decodeLoop, h2, decodeLoop, h3]
  · constructor
    · rintro ⟨e, he⟩
      rcases h1 : dec "utf-8" content with _ | v
      · rcases h2 : dec "cp932" content with _ | v
        · rcases h3 : dec "utf-16-sig" content with _ | v
          · exact ⟨rfl, rfl, rfl⟩
          · rw [decodeWithFallbacks, decodeLoop, h1, decodeLoop, h2,
              decodeLoop, h3] at he
            cases he
        · rw [decodeWithFallbacks, decodeLoop, h1, decodeLoop, h2] at he
          cases he
      · rw [decodeWithFallbacks, decodeLoop, h1] at he
        cases he
    · rintro ⟨h1, h2, h3⟩
      refine ⟨"Unsupported encoding. Save as UTF-8/Shift_JIS.", ?_⟩
      rw [decodeWithFallbacks, decodeLoop, h1, decodeLoop, h2, decodeLoop, h3,
        decodeLoop]

theorem c1_decode_fallback_order_witness :
    decodeWithFallbacks (fun e _ => if e = "cp932" then some [65] else none) [0] =
      Except.ok [65] :=
  (c1_decode_fallback_order (fun e _ => if e = "cp932" then some [65] else none)
    [0] [65]).2.1 (by decide) (by decide)

/-- Claim C5: `_resolve_table_name` checks, in order, the literal path name,
its percent-decoded form and its percent-encoded form against the existing
table names, returns the first candidate that is in the catalog, and a
not-found error when none is; in particular a table stored under a
percent-encoded name resolves from both the encoded and the decoded form. -/
theorem c5_resolve_table_name (existing : List (List Nat)) (pathName x : List Nat)
    (hx : ∀ b ∈ x, b < 256) :
    (pathName ∈ existing →
      resolveTableName existing pathName = Except.ok pathName) ∧
    (pathName ∉ existing → pyUnquote pathName ∈ existing →
      resolveTableName existing pathName = Except.ok (pyUnquote pathName)) ∧
    (pathName ∉ existing → pyUnquote pathName ∉ existing →
      pyQuote pathName ∈ existing →
      resolveTableName existing pathName = Except.ok (pyQuote pathName)) ∧
    (pathName ∉ existing → pyUnquote pathName ∉ existing →
      pyQuote pathName ∉ existing →
      resolveTableName existing pathName = Except.error "404: table not found") ∧
    (pyQuote x ∈ existing →
      resolveTableName existing (pyQuote x) = Except.ok (pyQuote x) ∧
        exceptOk (resolveTableName existing (pyUnquote (pyQuote x))) = true) := by
  refine ⟨?_, ?_, ?_, ?_, ?_⟩
  · intro h1
    rw [resolveTableName, if_pos h1]
  · intro h1 h2
    rw [resolveTableName, if_neg h1, if_pos h2]
  · intro h1 h2 h3
    rw [resolveTableName, if_neg h1, if_neg h2, if_pos h3]
  · intro h1 h2 h3
    rw [resolveTableName, if_neg h1, if_neg h2, if_neg h3]
  · intro hq
    refine ⟨?_, ?_⟩
    · rw [resolveTableName, if_pos hq]
    · rw [pyUnquote_pyQuote x hx, resolveTableName]
      by_cases h1 : x ∈ existing
      · rw [if_pos h1]; rfl
      · rw [if_neg h1]
        by_cases h2 : pyUnquote x ∈ existing
        · rw [if_pos h2]; rfl
        · rw [if_neg h2, if_pos hq]; rfl

theorem c5_resolve_table_name_witness :
    resolveTableName [pyQuote [227, 129, 130]] (pyQuote [227, 129, 130]) =
        Except.ok (pyQuote [227, 129, 130]) ∧
      exceptOk (resolveTableName [pyQuote [227, 129, 130]]
        (pyUnquote (pyQuote [227, 129, 130]))) = true :=
  (c5_resolve_table_name [pyQuote [227, 129, 130]] [227, 129, 130] [227, 129, 130]
    (by decide)).2.2.2.2 (by decide)

/-- Claim C7: the temporary file staged for an upload request is removed on
every exit path of the import pipeline — the model records `os.unlink` as
having run exactly when the temporary file was created, for every outcome of
table creation, rename and validation. -/
theorem c7_temp_file_cleanup (dec : String → List Nat → Option (List Nat))
    (ext : FileExt) (stem content : List Nat) (ts : Nat)
    (csvParse : Option (Nat × Nat)) (duckdbImport : Option (List TableEnt))
    (cat0 : List TableEnt) :
    (uploadFile dec ext stem content ts csvParse duckdbImport cat0).tempDeleted =
      (uploadFile dec ext stem content ts csvParse duckdbImport cat0).tempCreated := by
  have base : ∀ e tn sn dn rs p d c,
      (uploadAfterStage e tn sn dn rs p d c).tempDeleted =
        (uploadAfterStage e tn sn dn rs p d c).tempCreated := by
    intro e tn sn dn rs p d c
    rcases uploadAfterStage_temp e tn sn dn rs p d c with ⟨hc, hd⟩
    rw [hc, hd]
  cases ext with
  | duckdb =>
    rw [uploadFile]
    exact base _ _ _ _ _ _ _ _
  | csv =>
    rw [uploadFile]
    · cases decodeWithFallbacks dec content with
      | error e => rfl
      | ok s => exact base _ _ _ _ _ _ _ _
    · intro h; cases h
  | tsv =>
    rw [uploadFile]
    · cases decodeWithFallbacks dec content with
      | error e => rfl
      | ok s => exact base _ _ _ _ _ _ _ _
    · intro h; cases h
  | other =>
    rw [uploadFile]
    · cases decodeWithFallbacks dec content with
      | error e => rfl
      | ok s => exact base _ _ _ _ _ _ _ _
    · intro h; cases h

/-- Claim C6: a query that (after stripping surrounding whitespace) starts
with `SELECT` case-insensitively and contains no `LIMIT` is executed with
trailing semicolons removed and ` LIMIT {limit}` appended; a query already
containing `LIMIT`, and any non-`SELECT` query, is executed unchanged; and
`handle_call_tool` supplies the default limit 100 when the `limit` argument
is missing. -/
theorem c6_select_limit_appended (q : String) (limit : Nat) :
    (listLeads "SELECT".data (pyUpper (pyStrip q)) = true →
      listHasSub "LIMIT".data (pyUpper q.data) = false →
      effectiveQuery q limit = rstripSemi q ++ " LIMIT " ++ toString limit) ∧
    (listHasSub "LIMIT".data (pyUpper q.data) = true →
      effectiveQuery q limit = q) ∧
    (listLeads "SELECT".data (pyUpper (pyStrip q)) = false →
      effectiveQuery q limit = q) ∧
    (∀ env tn, handleCallTool env "execute_query" ⟨some q, none, tn⟩ =
      Except.ok (mcpExecuteQuery env q 100)) := by
  refine ⟨?_, ?_, ?_, ?_⟩
  · intro h1 h2
    rw [effectiveQuery, if_pos]
    rw [selectNeedsLimit, h1, h2]
    rfl
  · intro h
    rw [effectiveQuery, if_neg]
    rw [selectNeedsLimit, h]
    simp
  · intro h
    rw [effectiveQuery, if_neg]
    rw [selectNeedsLimit, h]
    simp
  · intro env tn
    rfl

theorem c6_select_limit_appended_witness :
    effectiveQuery "select 1;" 5 = rstripSemi "select 1;" ++ " LIMIT " ++ toString 5 ∧
      effectiveQuery "SELECT x FROM t LIMIT 3" 5 = "SELECT x FROM t LIMIT 3" :=
  ⟨(c6_select_limit_appended "select 1;" 5).1 (by decide) (by decide),
    (c6_select_limit_appended "SELECT x FROM t LIMIT 3" 5).2.1 (by decide)⟩

/-! Helper facts for C10: both tool implementations always return exactly
one `TextContent`. -/

theorem mcpExecuteQuery_texts_len (env : McpEnv) (q : String) (limit : Nat) :
    (mcpExecuteQuery env q limit).texts.length = 1 := by
  rcases hc : env.connect with e | u
  · simp [mcpExecuteQuery, hc]
  · rcases he : env.exec (effectiveQuery q limit) with e | ⟨cols, rows⟩
    · simp [mcpExecuteQuery, hc, he]
    · by_cases h : rows.isEmpty <;> simp [mcpExecuteQuery, hc, he, h]

theorem mcpGetTableInfo_texts_len (env : McpEnv) (tn : Option String) :
    (mcpGetTableInfo env tn).texts.length = 1 := by
  rcases hc : env.connect with e | u
  · simp [mcpGetTableInfo, hc]
  · rcases hs : env.showTables with e | names
    · simp [mcpGetTableInfo, hc, hs]
    · cases tn with
      | some t =>
        by_cases ht : t ∈ names
        · rcases hd : env.descr t with e | dcols
          · simp [mcpGetTableInfo, hc, hs, ht, hd]
          · rcases hcnt : env.countRows t with e | cnt
            · simp [mcpGetTableInfo, hc, hs, ht, hd, hcnt]
            · simp [mcpGetTableInfo, hc, hs, ht, hd, hcnt]
        · simp [mcpGetTableInfo, hc, hs, ht]
      | none =>
        by_cases hn : names.isEmpty <;> simp [mcpGetTableInfo, hc, hs, hn]

/-- Claim C10: `handle_call_tool` is total over calls that carry the
required `query` string: every internal failure (connection failure, SQL
error, missing table) comes back as a single human-readable error
`TextContent`, and an unknown tool name yields an `Unknown tool` text. -/
theorem c10_call_tool_total (env : McpEnv) (name : String) (args : ToolArgs)
    (q : String) (hq : args.query = some q) :
    (∃ out, handleCallTool env name args = Except.ok out ∧ out.texts.length = 1) ∧
    (name ≠ "execute_query" → name ≠ "get_table_info" →
      handleCallTool env name args =
        Except.ok ⟨["Unknown tool: " ++ name], false, false, none⟩) ∧
    (∀ e, name = "execute_query" → env.connect = Except.error e →
      handleCallTool env name args = Except.ok ⟨[execFailMsg ++ e], false, false, none⟩) ∧
    (∀ e, name = "execute_query" → env.connect = Except.ok () →
      env.exec (effectiveQuery q (args.limit.getD 100)) = Except.error e →
      handleCallTool env name args = Except.ok
        ⟨[execFailMsg ++ e], true, false,
          some (effectiveQuery q (args.limit.getD 100))⟩) := by
  refine ⟨?_, ?_, ?_, ?_⟩
  · by_cases h1 : name = "execute_query"
    · refine ⟨mcpExecuteQuery env q (args.limit.getD 100), ?_,
        mcpExecuteQuery_texts_len _ _ _⟩
      rw [handleCallTool, if_pos h1, hq]
    · by_cases h2 : name = "get_table_info"
      · refine ⟨mcpGetTableInfo env args.tableName, ?_, mcpGetTableInfo_texts_len _ _⟩
        rw [handleCallTool, if_neg h1, if_pos h2]
      · refine ⟨⟨["Unknown tool: " ++ name], false, false, none⟩, ?_, rfl⟩
        rw [handleCallTool, if_neg h1, if_neg h2]
  · intro h1 h2
    rw [handleCallTool, if_neg h1, if_neg h2]
  · intro e h1 hc
    rw [handleCallTool, if_pos h1, hq]
    simp [mcpExecuteQuery, hc]
  · intro e h1 hc he
    rw [handleCallTool, if_pos h1, hq]
    simp [mcpExecuteQuery, hc, he]

theorem c10_call_tool_total_witness :
    handleCallTool ⟨Except.ok (), fun _ => Except.error "syntax error",
        Except.ok [], fun _ => Except.error "", fun _ => Except.error ""⟩
        "execute_query" ⟨some "DROP TABLE t", none, none⟩ =
      Except.ok ⟨[execFailMsg ++ "syntax error"], true, false,
        some (effectiveQuery "DROP TABLE t" 100)⟩ ∧
    handleCallTool ⟨Except.ok (), fun _ => Except.error "syntax error",
        Except.ok [], fun _ => Except.error "", fun _ => Except.error ""⟩
        "other_tool" ⟨some "x", none, none⟩ =
      Except.ok ⟨["Unknown tool: " ++ "other_tool"], false, false, none⟩ :=
  ⟨(c10_call_tool_total ⟨Except.ok (), fun _ => Except.error "syntax error",
      Except.ok [], fun _ => Except.error "", fun _ => Except.error ""⟩
      "execute_query" ⟨some "DROP TABLE t", none, none⟩ "DROP TABLE t" rfl).2.2.2
        "syntax error" rfl rfl rfl,
    (c10_call_tool_total ⟨Except.ok (), fun _ => Except.error "syntax error",
      Except.ok [], fun _ => Except.error "", fun _ => Except.error ""⟩
      "other_tool" ⟨some "x", none, none⟩ "x" rfl).2.1 (by decide) (by decide)⟩

/-! ## Evaluation lemmas for the CSV/TSV upload path -/

theorem uploadAfterStage_noRename (ext : FileExt)
    (hext : ext = FileExt.csv ∨ ext = FileExt.tsv) (tn sn dn : List Nat)
    (cols rows : Nat) (ddb : Option (List TableEnt)) (cat0 : List TableEnt) :
    uploadAfterStage ext tn sn dn false (some (cols, rows)) ddb cat0 =
      (if cols = 0 then
        { status := 500, detail := uploadWrap (excStr (PyExc.httpExc 400 noColsMsg)),
          tableNameOut := none,
          catalog := catDrop (catReplace cat0 ⟨tn, none, cols, rows⟩) tn,
          tempCreated := true, tempDeleted := true, connClosed := false }
      else if rows = 0 then
        { status := 500, detail := uploadWrap (excStr (PyExc.httpExc 400 noRowsMsg)),
          tableNameOut := none,
          catalog := catDrop (catReplace cat0 ⟨tn, none, cols, rows⟩) tn,
          tempCreated := true, tempDeleted := true, connClosed := false }
      else
        { status := 200, detail := "", tableNameOut := some tn,
          catalog := catReplace cat0 ⟨tn, none, cols, rows⟩,
          tempCreated := true, tempDeleted := true, connClosed := true }) := by
  rcases hext with rfl | rfl <;>
    by_cases hc : cols = 0 <;>
      by_cases hr : rows = 0 <;>
        simp [uploadAfterStage, uploadInner, hc, hr]

theorem uploadAfterStage_rename (ext : FileExt)
    (hext : ext = FileExt.csv ∨ ext = FileExt.tsv) (tn sn dn : List Nat)
    (cols rows : Nat) (ddb : Option (List TableEnt)) (cat0 : List TableEnt)
    (hne : sn ≠ tn)
    (hfree : sn ∉ catNames (catReplace cat0 ⟨tn, none, cols, rows⟩)) :
    uploadAfterStage ext tn sn dn true (some (cols, rows)) ddb cat0 =
      (if cols = 0 then
        { status := 500, detail := uploadWrap (excStr (PyExc.httpExc 400 noColsMsg)),
          tableNameOut := none,
          catalog := catDrop (catSetComment
            (catRename (catReplace cat0 ⟨tn, none, cols, rows⟩) tn sn) sn dn) sn,
          tempCreated := true, tempDeleted := true, connClosed := false }
      else if rows = 0 then
        { status := 500, detail := uploadWrap (excStr (PyExc.httpExc 400 noRowsMsg)),
          tableNameOut := none,
          catalog := catDrop (catSetComment
            (catRename (catReplace cat0 ⟨tn, none, cols, rows⟩) tn sn) sn dn) sn,
          tempCreated := true, tempDeleted := true, connClosed := false }
      else
        { status := 200, detail := "", tableNameOut := some sn,
          catalog := catSetComment
            (catRename (catReplace cat0 ⟨tn, none, cols, rows⟩) tn sn) sn dn,
          tempCreated := true, tempDeleted := true, connClosed := true }) := by
  rcases hext with rfl | rfl <;>
  · by_cases hc : cols = 0
    · subst hc
      by_cases hr : rows = 0
      · subst hr
        simp [uploadAfterStage, uploadInner, hne, hfree]
      · simp [uploadAfterStage, uploadInner, hne, hfree, hr]
    · by_cases hr : rows = 0
      · subst hr
        simp [uploadAfterStage, uploadInner, hne, hfree, hc]
      · simp [uploadAfterStage, uploadInner, hne, hfree, hc, hr]

theorem tableTs_free_catReplace (cat0 : List TableEnt) (tn : List Nat)
    (cols rows ts : Nat) (hfree : tableTs ts ∉ catNames cat0)
    (hne : tableTs ts ≠ tn) :
    tableTs ts ∉ catNames (catReplace cat0 ⟨tn, none, cols, rows⟩) := by
  intro h
  rcases catNames_catReplace_subset _ _ _ h with h | h
  · exact hfree h
  · exact hne h

/-- Claim C2 (code bug): a CSV/TSV upload whose bytes decode under none of
the attempted encodings creates no table and its message names the supported
encodings, but the user-visible response is HTTP 500, not a 400:
`upload_file`'s trailing `except Exception` also catches the
`HTTPException(400, ...)` raised for the encoding failure (FastAPI's
`HTTPException` derives from `Exception`) and re-raises it as
`HTTPException(500, f"アップロードエラー: {str(e)}")`. -/
theorem c2_encoding_failure_wrapped_500 (dec : String → List Nat → Option (List Nat))
    (ext : FileExt) (stem content : List Nat) (ts : Nat)
    (csvParse : Option (Nat × Nat)) (duckdbImport : Option (List TableEnt))
    (cat0 : List TableEnt) (hext : ext = FileExt.csv ∨ ext = FileExt.tsv)
    (hdec : ∀ e, dec e content = none) :
    uploadFile dec ext stem content ts csvParse duckdbImport cat0 =
      { status := 500, detail := uploadWrap (excStr (PyExc.httpExc 400 encMsg)),
        tableNameOut := none, catalog := cat0,
        tempCreated := false, tempDeleted := false, connClosed := false } ∧
    listHasSub "UTF-8".data (uploadWrap (excStr (PyExc.httpExc 400 encMsg))).data = true ∧
    listHasSub "Shift_JIS(CP932)".data
      (uploadWrap (excStr (PyExc.httpExc 400 encMsg))).data = true ∧
    (uploadFile dec ext stem content ts csvParse duckdbImport cat0).status ≠ 400 := by
  have hfail : decodeWithFallbacks dec content =
      Except.error "Unsupported encoding. Save as UTF-8/Shift_JIS." :=
    decodeLoop_all_none dec content _ hdec
  have hmain : uploadFile dec ext stem content ts csvParse duckdbImport cat0 =
      { status := 500, detail := uploadWrap (excStr (PyExc.httpExc 400 encMsg)),
        tableNameOut := none, catalog := cat0,
        tempCreated := false, tempDeleted := false, connClosed := false } := by
    rcases hext with rfl | rfl <;> simp [uploadFile, hfail]
  refine ⟨hmain, by decide, by decide, ?_⟩
  rw [hmain]
  simp

theorem c2_encoding_failure_wrapped_500_witness :
    uploadFile (fun _ _ => none) FileExt.csv [100] [128] 0 none none [] =
      { status := 500, detail := uploadWrap (excStr (PyExc.httpExc 400 encMsg)),
        tableNameOut := none, catalog := [],
        tempCreated := false, tempDeleted := false, connClosed := false } ∧
    listHasSub "UTF-8".data (uploadWrap (excStr (PyExc.httpExc 400 encMsg))).data = true ∧
    listHasSub "Shift_JIS(CP932)".data
      (uploadWrap (excStr (PyExc.httpExc 400 encMsg))).data = true ∧
    (uploadFile (fun _ _ => none) FileExt.csv [100] [128] 0 none none []).status ≠ 400 :=
  c2_encoding_failure_wrapped_500 (fun _ _ => none) FileExt.csv [100] [128] 0 none none []
    (Or.inl rfl) (fun _ => rfl)

/-- Claim C4: when the table just created by a CSV/TSV upload has zero
columns or zero rows, the handler drops it again — no table under the final
name remains — and fails with a diagnostic distinguishing the zero-column
case from the zero-row case (each surfaced inside the catch-all's 500
wrapper, which preserves the distinguishing text). -/
theorem c4_empty_table_validation (dec : String → List Nat → Option (List Nat))
    (ext : FileExt) (stem content : List Nat) (ts cols rows : Nat)
    (duckdbImport : Option (List TableEnt)) (cat0 : List TableEnt)
    (out : UploadOutcome) (s : List Nat)
    (hext : ext = FileExt.csv ∨ ext = FileExt.tsv)
    (hdec : decodeWithFallbacks dec content = Except.ok s)
    (hbytes : ∀ b ∈ stem, b < 256)
    (hfree : tableTs ts ∉ catNames cat0)
    (hout : out = uploadFile dec ext stem content ts (some (cols, rows)) duckdbImport cat0) :
    (cols = 0 →
      out.status = 500 ∧
      out.detail = uploadWrap (excStr (PyExc.httpExc 400 noColsMsg)) ∧
      (if allAscii (pyUnquote stem) = true then pyQuote stem else tableTs ts) ∉
        catNames out.catalog) ∧
    (cols ≠ 0 → rows = 0 →
      out.status = 500 ∧
      out.detail = uploadWrap (excStr (PyExc.httpExc 400 noRowsMsg)) ∧
      (if allAscii (pyUnquote stem) = true then pyQuote stem else tableTs ts) ∉
        catNames out.catalog) ∧
    uploadWrap (excStr (PyExc.httpExc 400 noColsMsg)) ≠
      uploadWrap (excStr (PyExc.httpExc 400 noRowsMsg)) := by
  have hstage : out = uploadAfterStage ext (pyQuote stem)
      (if (!allAscii (pyUnquote stem)) = true then tableTs ts else pyQuote stem)
      (pyUnquote stem) (!allAscii (pyUnquote stem)) (some (cols, rows))
      duckdbImport cat0 := by
    rcases hext with h | h
    · subst h
      rw [uploadFile] at hout
      · rw [hdec] at hout
        exact hout
      · intro hh; cases hh
    · subst h
      rw [uploadFile] at hout
      · rw [hdec] at hout
        exact hout
      · intro hh; cases hh
  refine ⟨?_, ?_, by decide⟩
  · intro hc
    subst hc
    by_cases hA : allAscii (pyUnquote stem) = true
    · have hstage2 : out = uploadAfterStage ext (pyQuote stem) (pyQuote stem)
          (pyUnquote stem) false (some (0, rows)) duckdbImport cat0 := by
        rw [hstage, hA]; rfl
      rw [uploadAfterStage_noRename ext hext _ _ _ _ _ _, if_pos rfl] at hstage2
      rw [hstage2, if_pos hA]
      exact ⟨rfl, rfl, catNames_catDrop_self _ _⟩
    · have hA2 : allAscii (pyUnquote stem) = false := by
        cases h : allAscii (pyUnquote stem)
        · rfl
        · exact absurd h hA
      have hne : tableTs ts ≠ pyQuote stem :=
        (pyQuote_ne_tableTs stem ts hbytes hA2).symm
      have hfree1 : tableTs ts ∉
          catNames (catReplace cat0 ⟨pyQuote stem, none, 0, rows⟩) :=
        tableTs_free_catReplace cat0 (pyQuote stem) 0 rows ts hfree hne
      have hstage2 : out = uploadAfterStage ext (pyQuote stem) (tableTs ts)
          (pyUnquote stem) true (some (0, rows)) duckdbImport cat0 := by
        rw [hstage, hA2]; rfl
      rw [uploadAfterStage_rename ext hext _ _ _ _ _ _ _ hne hfree1,
        if_pos rfl] at hstage2
      rw [hstage2, if_neg hA]
      exact ⟨rfl, rfl, catNames_catDrop_self _ _⟩
  · intro hc hr
    subst hr
    by_cases hA : allAscii (pyUnquote stem) = true
    · have hstage2 : out = uploadAfterStage ext (pyQuote stem) (pyQuote stem)
          (pyUnquote stem) false (some (cols, 0)) duckdbImport cat0 := by
        rw [hstage, hA]; rfl
      rw [uploadAfterStage_noRename ext hext _ _ _ _ _ _, if_neg hc,
        if_pos rfl] at hstage2
      rw [hstage2, if_pos hA]
      exact ⟨rfl, rfl, catNames_catDrop_self _ _⟩
    · have hA2 : allAscii (pyUnquote stem) = false := by
        cases h : allAscii (pyUnquote stem)
        · rfl
        · exact absurd h hA
      have hne : tableTs ts ≠ pyQuote stem :=
        (pyQuote_ne_tableTs stem ts hbytes hA2).symm
      have hfree1 : tableTs ts ∉
          catNames (catReplace cat0 ⟨pyQuote stem, none, cols, 0⟩) :=
        tableTs_free_catReplace cat0 (pyQuote stem) cols 0 ts hfree hne
      have hstage2 : out = uploadAfterStage ext (pyQuote stem) (tableTs ts)
          (pyUnquote stem) true (some (cols, 0)) duckdbImport cat0 := by
        rw [hstage, hA2]; rfl
      rw [uploadAfterStage_rename ext hext _ _ _ _ _ _ _ hne hfree1, if_neg hc,
        if_pos rfl] at hstage2
      rw [hstage2, if_neg hA]
      exact ⟨rfl, rfl, catNames_catDrop_self _ _⟩

theorem c4_empty_table_validation_witness :
    (uploadFile (fun _ c => some c) FileExt.csv [100] [104] 7 (some (1, 0))
        none []).status = 500 ∧
    (uploadFile (fun _ c => some c) FileExt.csv [100] [104] 7 (some (1, 0))
        none []).detail = uploadWrap (excStr (PyExc.httpExc 400 noRowsMsg)) ∧
    (if allAscii (pyUnquote [100]) = true then pyQuote [100] else tableTs 7) ∉
      catNames (uploadFile (fun _ c => some c) FileExt.csv [100] [104] 7
        (some (1, 0)) none []).catalog :=
  (c4_empty_table_validation (fun _ c => some c) FileExt.csv [100] [104] 7 1 0
    none [] _ [104] (Or.inl rfl) rfl (by decide) (by decide) rfl).2.1
    (by decide) rfl

/-- Claim C3: on a successful CSV/TSV upload, if the percent-decoded
filename stem is representable in ASCII the created table keeps the
percent-encoded stem as its name; otherwise the table ends up under the
generated timestamp-based safe name and the decoded original name is stored
as the table's comment, retrievable by the metadata lookup
(`SELECT comment FROM duckdb_tables() WHERE table_name = ...`). -/
theorem c3_safe_identifier (dec : String → List Nat → Option (List Nat))
    (ext : FileExt) (stem content : List Nat) (ts cols rows : Nat)
    (duckdbImport : Option (List TableEnt)) (cat0 : List TableEnt)
    (out : UploadOutcome) (s : List Nat)
    (hext : ext = FileExt.csv ∨ ext = FileExt.tsv)
    (hdec : decodeWithFallbacks dec content = Except.ok s)
    (hbytes : ∀ b ∈ stem, b < 256)
    (hfree : tableTs ts ∉ catNames cat0)
    (hcols : cols ≠ 0) (hrows : rows ≠ 0)
    (hout : out = uploadFile dec ext stem content ts (some (cols, rows)) duckdbImport cat0) :
    out.status = 200 ∧
    (allAscii (pyUnquote stem) = true →
      out.tableNameOut = some (pyQuote stem) ∧
      pyQuote stem ∈ catNames out.catalog) ∧
    (allAscii (pyUnquote stem) = false →
      out.tableNameOut = some (tableTs ts) ∧
      lookupComment out.catalog (tableTs ts) = some (pyUnquote stem)) := by
  have hstage : out = uploadAfterStage ext (pyQuote stem)
      (if (!allAscii (pyUnquote stem)) = true then tableTs ts else pyQuote stem)
      (pyUnquote stem) (!allAscii (pyUnquote stem)) (some (cols, rows))
      duckdbImport cat0 := by
    rcases hext with h | h
    · subst h
      rw [uploadFile] at hout
      · rw [hdec] at hout
        exact hout
      · intro hh; cases hh
    · subst h
      rw [uploadFile] at hout
      · rw [hdec] at hout
        exact hout
      · intro hh; cases hh
  by_cases hA : allAscii (pyUnquote stem) = true
  · have hstage2 : out = uploadAfterStage ext (pyQuote stem) (pyQuote stem)
        (pyUnquote stem) false (some (cols, rows)) duckdbImport cat0 := by
      rw [hstage, hA]; rfl
    rw [uploadAfterStage_noRename ext hext _ _ _ _ _ _, if_neg hcols,
      if_neg hrows] at hstage2
    refine ⟨by rw [hstage2], fun _ => ⟨by rw [hstage2], ?_⟩, fun hA2 => ?_⟩
    · rw [hstage2]
      exact catNames_catReplace_self cat0 ⟨pyQuote stem, none, cols, rows⟩
    · rw [hA] at hA2
      cases hA2
  · have hA2 : allAscii (pyUnquote stem) = false := by
      cases h : allAscii (pyUnquote stem)
      · rfl
      · exact absurd h hA
    have hne : tableTs ts ≠ pyQuote stem :=
      (pyQuote_ne_tableTs stem ts hbytes hA2).symm
    have hfree1 : tableTs ts ∉
        catNames (catReplace cat0 ⟨pyQuote stem, none, cols, rows⟩) :=
      tableTs_free_catReplace cat0 (pyQuote stem) cols rows ts hfree hne
    have hstage2 : out = uploadAfterStage ext (pyQuote stem) (tableTs ts)
        (pyUnquote stem) true (some (cols, rows)) duckdbImport cat0 := by
      rw [hstage, hA2]; rfl
    rw [uploadAfterStage_rename ext hext _ _ _ _ _ _ _ hne hfree1, if_neg hcols,
      if_neg hrows] at hstage2
    refine ⟨by rw [hstage2], fun hA3 => absurd hA3 hA, fun _ => ⟨by rw [hstage2], ?_⟩⟩
    rw [hstage2]
    have hmem : tableTs ts ∈ catNames
        (catRename (catReplace cat0 ⟨pyQuote stem, none, cols, rows⟩)
          (pyQuote stem) (tableTs ts)) :=
      catNames_catRename_mem _ _ _
        (catNames_catReplace_self cat0 ⟨pyQuote stem, none, cols, rows⟩)
    exact lookupComment_catSetComment _ _ _ hmem

theorem c3_safe_identifier_witness :
    ((uploadFile (fun _ c => some c) FileExt.csv [227, 129, 130] [104] 7
        (some (2, 3)) none []).status = 200 ∧
      (uploadFile (fun _ c => some c) FileExt.csv [227, 129, 130] [104] 7
        (some (2, 3)) none []).tableNameOut = some (tableTs 7) ∧
      lookupComment (uploadFile (fun _ c => some c) FileExt.csv [227, 129, 130]
        [104] 7 (some (2, 3)) none []).catalog (tableTs 7) =
        some (pyUnquote [227, 129, 130])) ∧
    ((uploadFile (fun _ c => some c) FileExt.csv [100, 97, 116, 97] [104] 7
        (some (2, 3)) none []).status = 200 ∧
      (uploadFile (fun _ c => some c) FileExt.csv [100, 97, 116, 97] [104] 7
        (some (2, 3)) none []).tableNameOut = some (pyQuote [100, 97, 116, 97]) ∧
      pyQuote [100, 97, 116, 97] ∈ catNames
        (uploadFile (fun _ c => some c) FileExt.csv [100, 97, 116, 97] [104] 7
          (some (2, 3)) none []).catalog) :=
  ⟨⟨(c3_safe_identifier (fun _ c => some c) FileExt.csv [227, 129, 130] [104] 7 2 3
      none [] _ [104] (Or.inl rfl) rfl (by decide) (by decide) (by decide)
      (by decide) rfl).1,
    ((c3_safe_identifier (fun _ c => some c) FileExt.csv [227, 129, 130] [104] 7 2 3
      none [] _ [104] (Or.inl rfl) rfl (by decide) (by decide) (by decide)
      (by decide) rfl).2.2 (by decide)).1,
    ((c3_safe_identifier (fun _ c => some c) FileExt.csv [227, 129, 130] [104] 7 2 3
      none [] _ [104] (Or.inl rfl) rfl (by decide) (by decide) (by decide)
      (by decide) rfl).2.2 (by decide)).2⟩,
    ⟨(c3_safe_identifier (fun _ c => some c) FileExt.csv [100, 97, 116, 97] [104] 7 2 3
      none [] _ [104] (Or.inl rfl) rfl (by decide) (by decide) (by decide)
      (by decide) rfl).1,
    ((c3_safe_identifier (fun _ c => some c) FileExt.csv [100, 97, 116, 97] [104] 7 2 3
      none [] _ [104] (Or.inl rfl) rfl (by decide) (by decide) (by decide)
      (by decide) rfl).2.1 (by decide)).1,
    ((c3_safe_identifier (fun _ c => some c) FileExt.csv [100, 97, 116, 97] [104] 7 2 3
      none [] _ [104] (Or.inl rfl) rfl (by decide) (by decide) (by decide)
      (by decide) rfl).2.1 (by decide)).2⟩⟩

/-! ## Connection-closure facts (claim C8) -/

theorem uploadInner_fst_ne_none (ext : FileExt) (hne : ext ≠ FileExt.duckdb)
    (tn sn dn : List Nat) (rs : Bool) (p : Option (Nat × Nat))
    (d : Option (List TableEnt)) (cat0 : List TableEnt) :
    (uploadInner ext tn sn dn rs p d cat0).1 ≠ Except.ok none := by
  cases ext with
  | duckdb => exact absurd rfl hne
  | other => simp [uploadInner]
  | csv =>
    rcases p with _ | ⟨c, r⟩
    · simp [uploadInner]
    · rw [uploadInner]
      split
      · simp
      · split
        · simp
        · split
          · simp
          · simp
  | tsv =>
    rcases p with _ | ⟨c, r⟩
    · simp [uploadInner]
    · rw [uploadInner]
      split
      · simp
      · split
        · simp
        · split
          · simp
          · simp

theorem uploadAfterStage_conn (ext : FileExt) (hne : ext ≠ FileExt.duckdb)
    (tn sn dn : List Nat) (rs : Bool) (p : Option (Nat × Nat))
    (d : Option (List TableEnt)) (cat0 : List TableEnt) :
    ((uploadAfterStage ext tn sn dn rs p d cat0).status = 500 →
      (uploadAfterStage ext tn sn dn rs p d cat0).connClosed = false) ∧
    ((uploadAfterStage ext tn sn dn rs p d cat0).status = 200 →
      (uploadAfterStage ext tn sn dn rs p d cat0).connClosed = true) := by
  have hnn := uploadInner_fst_ne_none ext hne tn sn dn rs p d cat0
  rw [uploadAfterStage]
  rcases h : uploadInner ext tn sn dn rs p d cat0 with ⟨r, cat⟩
  rw [h] at hnn
  rcases r with e | fn
  · exact ⟨fun _ => rfl, fun h2 => by simp at h2⟩
  · rcases fn with _ | n
    · exact absurd rfl hnn
    · exact ⟨fun h2 => by simp at h2, fun _ => rfl⟩

/-- Claim C8 counterexample: `_execute_query` opens a connection, the SQL
execution fails, and the handler returns its error text without ever calling
`conn.close()` — the connection opened by the handler is not closed on this
error path. -/
theorem c8_counterexample_open_connection :
    (mcpExecuteQuery ⟨Except.ok (), fun _ => Except.error "boom", Except.ok [],
        fun _ => Except.error "", fun _ => Except.error ""⟩
      "SELECT 1" 100).connOpened = true ∧
    (mcpExecuteQuery ⟨Except.ok (), fun _ => Except.error "boom", Except.ok [],
        fun _ => Except.error "", fun _ => Except.error ""⟩
      "SELECT 1" 100).connClosed = false := by
  constructor <;> rfl

/-! ## `query_table` and `rename_table` (src/server.py lines 294-309 and
341-367)

Both handlers open their own connection.  `rename_table` has
`except HTTPException: raise`, so the resolver's 404 and the collision 400
keep their statuses; `query_table` has only the generic `except Exception`,
so the resolver's 404 is re-wrapped as a 500 there.  Engine effects are
parameters: `execRes` models `conn.execute(...).fetchall()` for the SELECT
(`none` = exception), `alterErr` models an `ALTER TABLE` failure carrying
`str(e)` (`none` = success). -/

structure HandlerOutcome where
  status : Nat
  detail : String
  connOpened : Bool
  connClosed : Bool
  catalog : List TableEnt
deriving DecidableEq

/-- Model of the `query_table` handler. -/
def queryTable (cat : List TableEnt) (pathName : List Nat) (limit : Nat)
    (execRes : List Nat → Option (List (List Nat))) : HandlerOutcome :=
  match resolveTableName (catNames cat) pathName with
  | Except.error e =>
    { status := 500, detail := "クエリエラー: " ++ e, connOpened := true,
      connClosed := false, catalog := cat }
  | Except.ok resolved =>
    match execRes (queryTableSQL resolved limit) with
    | none =>
      { status := 500, detail := "クエリエラー: engine error", connOpened := true,
        connClosed := false, catalog := cat }
    | some _ =>
      { status := 200, detail := "", connOpened := true, connClosed := true,
        catalog := cat }

/-- Model of the `rename_table` handler. -/
def renameTable (cat : List TableEnt) (pathName newName : List Nat)
    (alterErr : Option String) : HandlerOutcome :=
  match resolveTableName (catNames cat) pathName with
  | Except.error e =>
    { status := 404, detail := e, connOpened := true, connClosed := false,
      catalog := cat }
  | Except.ok resolved =>
    if newName ∈ catNames cat then
      { status := 400, detail := "同名のテーブルが既に存在します", connOpened := true,
        connClosed := true, catalog := cat }
    else
      match alterErr with
      | some m =>
        { status := 500, detail := "テーブル名変更エラー: " ++ m, connOpened := true,
          connClosed := false, catalog := cat }
      | none =>
        { status := 200, detail := "", connOpened := true, connClosed := true,
          catalog := catRename cat resolved newName }

/-- Claim C8 (amended): across the modelled handlers the connection is
closed on each fully successful path, and on exactly two error paths —
`rename_table` closes before raising its name-collision 400, and
`_get_table_info` closes before returning its table-not-found text.  Every
other error path after opening (the resolver's 404 in `query_table` and
`rename_table`, `SHOW TABLES` / `DESCRIBE` / SQL / `ALTER` failures, and the
decode and validation failures of `upload_file`), as well as `upload_file`'s
successful DuckDB-import early return, leaves the connection open. -/
theorem c8_amended_connection_closure :
    (∀ env q limit,
      (mcpExecuteQuery env q limit).connClosed = true ↔
        (env.connect = Except.ok () ∧
          exceptOk (env.exec (effectiveQuery q limit)) = true)) ∧
    (∀ env t names, env.connect = Except.ok () → env.showTables = Except.ok names →
      t ∉ names → (mcpGetTableInfo env (some t)).connClosed = true) ∧
    (∀ env t e, env.connect = Except.ok () → env.showTables = Except.error e →
      (mcpGetTableInfo env (some t)).connClosed = false) ∧
    (∀ env t names e, env.connect = Except.ok () → env.showTables = Except.ok names →
      t ∈ names → env.descr t = Except.error e →
      (mcpGetTableInfo env (some t)).connClosed = false) ∧
    (∀ cat pathName newName alterErr resolved,
      resolveTableName (catNames cat) pathName = Except.ok resolved →
      ((newName ∈ catNames cat →
        (renameTable cat pathName newName alterErr).status = 400 ∧
          (renameTable cat pathName newName alterErr).connClosed = true) ∧
      (newName ∉ catNames cat → alterErr = none →
        (renameTable cat pathName newName alterErr).connClosed = true) ∧
      (∀ m, newName ∉ catNames cat → alterErr = some m →
        (renameTable cat pathName newName alterErr).status = 500 ∧
          (renameTable cat pathName newName alterErr).connClosed = false))) ∧
    (∀ cat pathName newName alterErr e,
      resolveTableName (catNames cat) pathName = Except.error e →
      (renameTable cat pathName newName alterErr).status = 404 ∧
        (renameTable cat pathName newName alterErr).connClosed = false) ∧
    (∀ cat pathName limit execRes resolved,
      resolveTableName (catNames cat) pathName = Except.ok resolved →
      ((execRes (queryTableSQL resolved limit) = none →
        (queryTable cat pathName limit execRes).connClosed = false) ∧
      (∀ rows, execRes (queryTableSQL resolved limit) = some rows →
        (queryTable cat pathName limit execRes).connClosed = true))) ∧
    (∀ cat pathName limit execRes e,
      resolveTableName (catNames cat) pathName = Except.error e →
      (queryTable cat pathName limit execRes).status = 500 ∧
        (queryTable cat pathName limit execRes).connClosed = false) ∧
    (∀ dec ext stem content ts p d cat0,
      ((uploadFile dec ext stem content ts p d cat0).status = 500 →
        (uploadFile dec ext stem content ts p d cat0).connClosed = false) ∧
      ((uploadFile dec ext stem content ts p d cat0).status = 200 →
        ext ≠ FileExt.duckdb →
        (uploadFile dec ext stem content ts p d cat0).connClosed = true) ∧
      (ext = FileExt.duckdb →
        (uploadFile dec ext stem content ts p d cat0).status = 200 →
        (uploadFile dec ext stem content ts p d cat0).connClosed = false)) := by
  refine ⟨?_, ?_, ?_, ?_, ?_, ?_, ?_, ?_, ?_⟩
  · intro env q limit
    rcases hc : env.connect with e | u
    · simp [mcpExecuteQuery, hc]
    · cases u
      rcases he : env.exec (effectiveQuery q limit) with e | ⟨cols, rows⟩
      · simp [mcpExecuteQuery, hc, he, exceptOk]
      · by_cases h : rows.isEmpty <;> simp [mcpExecuteQuery, hc, he, h, exceptOk]
  · intro env t names hc hs ht
    simp [mcpGetTableInfo, hc, hs, ht]
  · intro env t e hc hs
    simp [mcpGetTableInfo, hc, hs]
  · intro env t names e hc hs ht hd
    simp [mcpGetTableInfo, hc, hs, ht, hd]
  · intro cat pathName newName alterErr resolved hres
    refine ⟨fun hmem => ?_, fun hmem halter => ?_, fun m hmem halter => ?_⟩
    · simp [renameTable, hres, hmem]
    · simp [renameTable, hres, hmem, halter]
    · simp [renameTable, hres, hmem, halter]
  · intro cat pathName newName alterErr e hres
    simp [renameTable, hres]
  · intro cat pathName limit execRes resolved hres
    refine ⟨fun hexec => ?_, fun rows hexec => ?_⟩
    · simp [queryTable, hres, hexec]
    · simp [queryTable, hres, hexec]
  · intro cat pathName limit execRes e hres
    simp [queryTable, hres]
  · intro dec ext stem content ts p d cat0
    cases ext with
    | duckdb =>
      rcases d with _ | cat2
      · have hval : uploadFile dec FileExt.duckdb stem content ts p none cat0 =
            uploadAfterStage FileExt.duckdb (pyQuote stem)
              (if (!allAscii (pyUnquote stem)) = true then tableTs ts else pyQuote stem)
              (pyUnquote stem) (!allAscii (pyUnquote stem)) p none cat0 := by
          rw [uploadFile]
        rw [hval]
        refine ⟨fun _ => ?_, fun _ hne2 => absurd rfl hne2, fun _ h2 => ?_⟩
        · simp [uploadAfterStage, uploadInner]
        · simp [uploadAfterStage, uploadInner] at h2
      · have hval : uploadFile dec FileExt.duckdb stem content ts p (some cat2) cat0 =
            uploadAfterStage FileExt.duckdb (pyQuote stem)
              (if (!allAscii (pyUnquote stem)) = true then tableTs ts else pyQuote stem)
              (pyUnquote stem) (!allAscii (pyUnquote stem)) p (some cat2) cat0 := by
          rw [uploadFile]
        rw [hval]
        refine ⟨fun h2 => ?_, fun _ hne2 => absurd rfl hne2, fun _ _ => ?_⟩
        · simp [uploadAfterStage, uploadInner] at h2
        · simp [uploadAfterStage, uploadInner]
    | csv =>
      rcases hd : decodeWithFallbacks dec content with e | s
      · have hval : uploadFile dec FileExt.csv stem content ts p d cat0 =
            { status := 500, detail := uploadWrap (excStr (PyExc.httpExc 400 encMsg)),
              tableNameOut := none, catalog := cat0,
              tempCreated := false, tempDeleted := false, connClosed := false } := by
          rw [uploadFile]
          · rw [hd]
          · intro hh; cases hh
        rw [hval]
        exact ⟨fun _ => rfl, fun h2 _ => by simp at h2, fun h _ => by cases h⟩
      · have hval : uploadFile dec FileExt.csv stem content ts p d cat0 =
            uploadAfterStage FileExt.csv (pyQuote stem)
              (if (!allAscii (pyUnquote stem)) = true then tableTs ts else pyQuote stem)
              (pyUnquote stem) (!allAscii (pyUnquote stem)) p d cat0 := by
          rw [uploadFile]
          · rw [hd]
          · intro hh; cases hh
        rw [hval]
        rcases uploadAfterStage_conn FileExt.csv (by intro hh; cases hh) (pyQuote stem)
            (if (!allAscii (pyUnquote stem)) = true then tableTs ts else pyQuote stem)
            (pyUnquote stem) (!allAscii (pyUnquote stem)) p d cat0 with ⟨hA, hB⟩
        exact ⟨hA, fun h2 _ => hB h2, fun h _ => by cases h⟩
    | tsv =>
      rcases hd : decodeWithFallbacks dec content with e | s
      · have hval : uploadFile dec FileExt.tsv stem content ts p d cat0 =
            { status := 500, detail := uploadWrap (excStr (PyExc.httpExc 400 encMsg)),
              tableNameOut := none, catalog := cat0,
              tempCreated := false, tempDeleted := false, connClosed := false } := by
          rw [uploadFile]
          · rw [hd]
          · intro hh; cases hh
        rw [hval]
        exact ⟨fun _ => rfl, fun h2 _ => by simp at h2, fun h _ => by cases h⟩
      · have hval : uploadFile dec FileExt.tsv stem content ts p d cat0 =
            uploadAfterStage FileExt.tsv (pyQuote stem)
              (if (!allAscii (pyUnquote stem)) = true then tableTs ts else pyQuote stem)
              (pyUnquote stem) (!allAscii (pyUnquote stem)) p d cat0 := by
          rw [uploadFile]
          · rw [hd]
          · intro hh; cases hh
        rw [hval]
        rcases uploadAfterStage_conn FileExt.tsv (by intro hh; cases hh) (pyQuote stem)
            (if (!allAscii (pyUnquote stem)) = true then tableTs ts else pyQuote stem)
            (pyUnquote stem) (!allAscii (pyUnquote stem)) p d cat0 with ⟨hA, hB⟩
        exact ⟨hA, fun h2 _ => hB h2, fun h _ => by cases h⟩
    | other =>
      rcases hd : decodeWithFallbacks dec content with e | s
      · have hval : uploadFile dec FileExt.other stem content ts p d cat0 =
            { status := 500, detail := uploadWrap (excStr (PyExc.httpExc 400 encMsg)),
              tableNameOut := none, catalog := cat0,
              tempCreated := false, tempDeleted := false, connClosed := false } := by
          rw [uploadFile]
          · rw [hd]
          · intro hh; cases hh
        rw [hval]
        exact ⟨fun _ => rfl, fun h2 _ => by simp at h2, fun h _ => by cases h⟩
      · have hval : uploadFile dec FileExt.other stem content ts p d cat0 =
            uploadAfterStage FileExt.other (pyQuote stem)
              (if (!allAscii (pyUnquote stem)) = true then tableTs ts else pyQuote stem)
              (pyUnquote stem) (!allAscii (pyUnquote stem)) p d cat0 := by
          rw [uploadFile]
          · rw [hd]
          · intro hh; cases hh
        rw [hval]
        rcases uploadAfterStage_conn FileExt.other (by intro hh; cases hh) (pyQuote stem)
            (if (!allAscii (pyUnquote stem)) = true then tableTs ts else pyQuote stem)
            (pyUnquote stem) (!allAscii (pyUnquote stem)) p d cat0 with ⟨hA, hB⟩
        exact ⟨hA, fun h2 _ => hB h2, fun h _ => by cases h⟩

theorem c8_amended_connection_closure_witness :
    ((renameTable [⟨[97], none, 1, 1⟩] [97] [97] none).status = 400 ∧
      (renameTable [⟨[97], none, 1, 1⟩] [97] [97] none).connClosed = true) ∧
    (mcpGetTableInfo ⟨Except.ok (), fun _ => Except.error "boom", Except.ok ["t"],
        fun _ => Except.error "", fun _ => Except.error ""⟩
      (some "u")).connClosed = true ∧
    (uploadFile (fun _ c => some c) FileExt.csv [100] [104] 7 (some (1, 2))
        none []).connClosed = true ∧
    (mcpExecuteQuery ⟨Except.ok (), fun _ => Except.error "boom", Except.ok [],
        fun _ => Except.error "", fun _ => Except.error ""⟩
      "SELECT 1" 100).connClosed = false :=
  ⟨(c8_amended_connection_closure.2.2.2.2.1 [⟨[97], none, 1, 1⟩] [97] [97] none
      [97] rfl).1 (by decide),
    c8_amended_connection_closure.2.1
      ⟨Except.ok (), fun _ => Except.error "boom", Except.ok ["t"],
        fun _ => Except.error "", fun _ => Except.error ""⟩
      "u" ["t"] rfl rfl (by decide),
    ((c8_amended_connection_closure.2.2.2.2.2.2.2.2 (fun _ c => some c) FileExt.csv
      [100] [104] 7 (some (1, 2)) none []).2.1 (by decide) (by intro hh; cases hh)),
    by
      have h := (c8_amended_connection_closure.1
        ⟨Except.ok (), fun _ => Except.error "boom", Except.ok [],
          fun _ => Except.error "", fun _ => Except.error ""⟩ "SELECT 1" 100)
      cases hcc : (mcpExecuteQuery ⟨Except.ok (), fun _ => Except.error "boom",
          Except.ok [], fun _ => Except.error "", fun _ => Except.error ""⟩
        "SELECT 1" 100).connClosed
      · rfl
      · exact absurd ((h.mp hcc).2) (by decide)⟩

/-- Claim C9 counterexample: `update_table_comment` inlines the
path-supplied table name into `COMMENT ON TABLE "..." IS '...'` without
escaping: for the one-character name `"` (byte 34), the generated SQL
differs from the properly quote-escaped form, refuting the claim that every
operation escapes double quotes in interpolated table names. -/
theorem c9_counterexample_unescaped_comment :
    (commentOnTableSQL [34] [] =
      asciiBytes "COMMENT ON TABLE \x22" ++ escQuotes [34] ++
        asciiBytes "\x22 IS '" ++ [] ++ asciiBytes "'") = False := by
  apply eq_false
  decide

/-- Claim C9 (amended): only the DuckDB-import path escapes double quotes
in table names (`table_name.replace('"', '""')` before inlining); names
created by the CSV/TSV upload path can never contain a double quote, since
`urllib.parse.quote(..., safe='')` percent-encodes byte 34; the comment,
rename (and the other resolved-name) statements inline the name verbatim
with no escaping. -/
theorem c9_amended_identifier_escaping :
    (∀ n, importDropSQL n =
      asciiBytes "DROP TABLE IF EXISTS \x22" ++ escQuotes n ++ asciiBytes "\x22") ∧
    (∀ bs, (pyQuote bs).all (fun b => decide (b ≠ 34)) = true) ∧
    (∀ n c, commentOnTableSQL n c =
      asciiBytes "COMMENT ON TABLE \x22" ++ n ++ asciiBytes "\x22 IS '" ++ c ++
        asciiBytes "'") ∧
    (∀ r n, renameSQL r n =
      asciiBytes "ALTER TABLE \x22" ++ r ++ asciiBytes "\x22 RENAME TO \x22" ++ n ++
        asciiBytes "\x22") := by
  refine ⟨fun n => rfl, fun bs => ?_, fun n c => rfl, fun r n => rfl⟩
  rw [List.all_eq_true]
  intro b hb
  have hne : b ≠ 34 := fun he => pyQuote_no_doublequote bs (he ▸ hb)
  simp [hne]
